import Mathlib

/-!
Verification of `src/migrate/migrators/account_store_mapping.py` from
rdegges/stormpath-migrate.

The file defines `ApplicationAccountStoreMappingMigrator` and
`OrganizationAccountStoreMappingMigrator`, each with four methods
(`get_destination_tenant`, `get_source_account_store`,
`get_destination_account_store`, `copy_mapping`) orchestrated by `migrate`.

Shallow embedding choices:
* Every remote API attempt consumes one entry of an oracle `List Bool`
  (`true` = the HTTP call succeeds, `false` = the vendor client raises
  `stormpath.error.Error`).  A `while True: try ... except StormpathError`
  loop becomes the recursive `retry` function below; exhausting the finite
  oracle while still failing models the loop spinning forever (`Res.hang`).
* The local state `St` carries the destination parent's
  `account_store_mappings` collection (the only remote state this code
  writes), the log stream, and an event trace recording, per remote
  attempt, which call was made and whether it succeeded, plus begin/done
  markers for the four methods.
* Iterating `da.account_store_mappings` in `copy_mapping` is a lazy
  collection fetch performed by the vendor SDK; in the source it sits
  outside any `try/except`, so in the embedding a failed attempt there
  produces `Res.raised` (the exception propagates) instead of retrying.
* The `href` a server would assign to a freshly created mapping is never
  read by the migrator; it is modeled deterministically from the account
  store's href.
-/

namespace Stormpath

/-- Severity of a log record emitted through `logger`. -/
inductive LogLevel where
  | error
  | warning
  | info
  deriving DecidableEq, Repr

/-- One record sent to the `logger`. -/
structure LogEntry where
  level : LogLevel
  msg : String
  deriving DecidableEq, Repr

/-- An account store (a `Directory`, `Group` or `Organization` resource).
`klass` is the Python class name `type(obj).__name__`. -/
structure AccountStore where
  href : String
  name : String
  klass : String
  deriving DecidableEq, Repr

/-- An account-store mapping resource.  `parent_href` is the href of the
owning application (for `ApplicationAccountStoreMapping`) or organization
(for `OrganizationAccountStoreMapping`). -/
structure AccountStoreMapping where
  href : String
  account_store : AccountStore
  parent_href : String
  list_index : Nat
  is_default_account_store : Bool
  is_default_group_store : Bool
  deriving DecidableEq, Repr

/-- The source `AccountStoreMapping` handed to the migrator's constructor:
the fields `copy_mapping` reads from `self.source_account_store_mapping`. -/
structure SourceMapping where
  href : String
  account_store : AccountStore
  list_index : Nat
  is_default_account_store : Bool
  is_default_group_store : Bool
  deriving DecidableEq, Repr

/-- The destination tenant's account-store collections, addressed by
attribute name exactly as `getattr(tenant, collection)` does. -/
structure Tenant where
  directories : List AccountStore
  groups : List AccountStore
  organizations : List AccountStore
  deriving DecidableEq, Repr

/-- Embedding of `getattr(tenant, collection)` for the three collection
attributes this migrator can compute; any other attribute name does not
occur for the account-store classes handled here. -/
def Tenant.getattr (t : Tenant) (s : String) : List AccountStore :=
  if s = "directories" then t.directories
  else if s = "groups" then t.groups
  else if s = "organizations" then t.organizations
  else []

/-- The destination application (or organization) passed to the migrator's
constructor: href, name, and its (lazily fetched) tenant. -/
structure Resource where
  href : String
  name : String
  tenant : Tenant
  deriving DecidableEq, Repr

/-- The four migrator methods, used as bracketing markers in the trace. -/
inductive OpName where
  | getDestinationTenant
  | getSourceAccountStore
  | getDestinationAccountStore
  | copyMapping
  deriving DecidableEq, Repr

/-- The individual remote API calls the methods perform. -/
inductive RCall where
  | refreshTenant
  | refreshStore
  | searchStores
  | listMappings
  | createMapping
  deriving DecidableEq, Repr

/-- Trace events: method entry/exit markers and remote call attempts with
their outcome. -/
inductive Ev where
  | begin (op : OpName)
  | attempt (c : RCall) (ok : Bool)
  | done (op : OpName)
  deriving DecidableEq, Repr

/-- Mutable world visible to the migrator: the destination parent's
`account_store_mappings` collection (the only remote state this code ever
writes), the log stream, and the trace of events so far. -/
structure St where
  destMappings : List AccountStoreMapping
  logs : List LogEntry
  events : List Ev
  deriving DecidableEq, Repr

/-- Append an event to the trace. -/
def pushEv (st : St) (e : Ev) : St :=
  { st with events := st.events ++ [e] }

/-- Append a log record. -/
def pushLog (st : St) (l : LogEntry) : St :=
  { st with logs := st.logs ++ [l] }

/-- Outcome of running a piece of the migrator: normal return carrying the
unconsumed oracle and final state, a propagated `StormpathError`, or an
infinite retry loop (the oracle was exhausted while failing). -/
inductive Res (α : Type) where
  | ok (a : α) (oracle : List Bool) (st : St)
  | raised (oracle : List Bool) (st : St)
  | hang
  deriving DecidableEq, Repr

/-- True exactly when the computation ended with a propagated exception. -/
def Res.isRaised {α : Type} : Res α → Bool
  | .raised _ _ => true
  | _ => false

/-- The event trace at the end of the computation (empty for `hang`). -/
def Res.finalEvents {α : Type} : Res α → List Ev
  | .ok _ _ st => st.events
  | .raised _ st => st.events
  | .hang => []

/-- Embedding of `while True: try: return act() except StormpathError as
err: logger.error(msg)`.  Each attempt consumes one oracle entry; a failed
attempt records the attempt, logs `msg` at error level and retries; the
first successful attempt runs `act` on the current state and returns. -/
def retry {α : Type} (c : RCall) (msg : String) (act : St → α × St) :
    List Bool → St → Res α
  | [], _ => .hang
  | true :: rest, st =>
    let st1 := pushEv st (.attempt c true)
    .ok (act st1).1 rest (act st1).2
  | false :: rest, st =>
    retry c msg act rest (pushLog (pushEv st (.attempt c false)) ⟨.error, msg⟩)

/-- Run a method body between `begin`/`done` trace markers; a propagated
exception skips the `done` marker, mirroring Python's unwinding. -/
def withOp {α : Type} (op : OpName) (body : List Bool → St → Res α)
    (o : List Bool) (st : St) : Res α :=
  match body o (pushEv st (.begin op)) with
  | .ok a o' st' => .ok a o' (pushEv st' (.done op))
  | .raised o' st' => .raised o' st'
  | .hang => .hang

/-- Python's `str.lower()`, per character (equivalent to
`String.toLower`, written so that it reduces inside the kernel). -/
def pyLower (s : String) : String :=
  ⟨s.data.map Char.toLower⟩

/-- Collection attribute chosen by `get_destination_account_store`:
`'directories' if klass == 'Directory' else klass.lower() + 's'`. -/
def collectionName (klass : String) : String :=
  if klass = "Directory" then "directories" else pyLower klass ++ "s"

/-- Embedding of `collection.search({'name': name})`: the resources of the
collection whose `name` attribute equals the query, in collection order. -/
def searchByName (stores : List AccountStore) (n : String) : List AccountStore :=
  stores.filter (fun s => s.name == n)

/-- Pure value of the destination account-store lookup:
`matches[0] if len(matches) > 0 else None`. -/
def destStoreOf (t : Tenant) (sas : AccountStore) : Option AccountStore :=
  (searchByName (t.getattr (collectionName sas.klass)) sas.name).head?

/-- The existing-mapping scan of `copy_mapping`: the first mapping of the
destination collection whose account store href and parent href both
match. -/
def findExisting (asHref pHref : String) (l : List AccountStoreMapping) :
    Option AccountStoreMapping :=
  l.find? (fun m => m.account_store.href == asHref && m.parent_href == pHref)

/-- Error message of `get_source_account_store` (both classes; the `err`
detail of the caught exception is not modeled). -/
def srcStoreErrMsg (sasm : SourceMapping) : String :=
  "Failed to fetch source AccountStore for Mapping: " ++ sasm.href

/-- Error message of `get_destination_tenant` (both classes). -/
def destTenantErrMsg : String :=
  "Failed to fetch destination Tenant"

/-- Error message of `get_destination_account_store` (both classes). -/
def destStoreErrMsg (sas : AccountStore) : String :=
  "Failed to fetch destination " ++ sas.klass ++ ": " ++ sas.name

/-- Error message of the application `copy_mapping` create loop. -/
def copyErrMsgA (da : Resource) (das : AccountStore) : String :=
  "Failed to copy AccountStoreMapping from Application: " ++ da.name ++
    " to " ++ das.klass ++ " " ++ das.name

/-- Warning logged by the application `migrate` when the destination
account store does not exist. -/
def skipMsgA (da : Resource) (sas : AccountStore) : String :=
  "Skipping creation of AccountStoreMapping from Application: " ++ da.name ++
    " to " ++ sas.klass ++ " " ++ sas.name ++
    " (The destination AccountStore does not exist)"

/-- Info message logged by the application `migrate` on success. -/
def successMsgA (da : Resource) (das : AccountStore) : String :=
  "Successfully copied source AccountStoreMapping from Application: " ++
    da.name ++ " to " ++ das.klass ++ " " ++ das.name ++ "."

/-- The mapping created by the application `copy_mapping`:
`da.account_store_mappings.create({'account_store': das, 'application': da,
'list_index': ..., 'is_default_account_store': ...,
'is_default_group_store': ...})`.  The server-assigned href is modeled
deterministically; the migrator never reads it. -/
def mkCreatedApp (da : Resource) (sasm : SourceMapping) (das : AccountStore) :
    AccountStoreMapping :=
  { href := "mapping-for:" ++ das.href
  , account_store := das
  , parent_href := da.href
  , list_index := sasm.list_index
  , is_default_account_store := sasm.is_default_account_store
  , is_default_group_store := sasm.is_default_group_store }

/-- `ApplicationAccountStoreMappingMigrator.get_source_account_store`. -/
def getSourceAccountStoreA (sasm : SourceMapping) :
    List Bool → St → Res AccountStore :=
  withOp .getSourceAccountStore
    (retry .refreshStore (srcStoreErrMsg sasm) (fun st => (sasm.account_store, st)))

/-- `ApplicationAccountStoreMappingMigrator.get_destination_tenant`. -/
def getDestinationTenantA (da : Resource) :
    List Bool → St → Res Tenant :=
  withOp .getDestinationTenant
    (retry .refreshTenant destTenantErrMsg (fun st => (da.tenant, st)))

/-- `ApplicationAccountStoreMappingMigrator.get_destination_account_store`:
search, in the destination tenant, the collection named by the source
store's class for stores with the source store's name. -/
def getDestinationAccountStoreA (tenant : Tenant) (sas : AccountStore) :
    List Bool → St → Res (Option AccountStore) :=
  withOp .getDestinationAccountStore
    (retry .searchStores (destStoreErrMsg sas) (fun st => (destStoreOf tenant sas, st)))

/-- `ApplicationAccountStoreMappingMigrator.copy_mapping`.  The iteration
over `da.account_store_mappings` is one lazy collection fetch, outside any
`try/except`: its failure propagates (`Res.raised`).  On success the first
equivalent mapping is returned if present; otherwise the create call is
retried until it succeeds. -/
def copyMappingA (da : Resource) (sasm : SourceMapping) (das : AccountStore) :
    List Bool → St → Res AccountStoreMapping :=
  withOp .copyMapping (fun o st =>
    match o with
    | [] => .hang
    | true :: rest =>
      let st1 := pushEv st (.attempt .listMappings true)
      match findExisting das.href da.href st1.destMappings with
      | some m => .ok m rest st1
      | none =>
        retry .createMapping (copyErrMsgA da das)
          (fun s =>
            let m := mkCreatedApp da sasm das
            (m, { s with destMappings := s.destMappings ++ [m] }))
          rest st1
    | false :: rest => .raised rest (pushEv st (.attempt .listMappings false)))

/-- `ApplicationAccountStoreMappingMigrator.migrate`: the four methods in
sequence, skipping `copy_mapping` with a warning when the destination
account store does not resolve. -/
def migrateA (da : Resource) (sasm : SourceMapping)
    (o : List Bool) (st : St) : Res (Option AccountStoreMapping) :=
  match getDestinationTenantA da o st with
  | .hang => .hang
  | .raised o1 st1 => .raised o1 st1
  | .ok tenant o1 st1 =>
    match getSourceAccountStoreA sasm o1 st1 with
    | .hang => .hang
    | .raised o2 st2 => .raised o2 st2
    | .ok sas o2 st2 =>
      match getDestinationAccountStoreA tenant sas o2 st2 with
      | .hang => .hang
      | .raised o3 st3 => .raised o3 st3
      | .ok dasOpt o3 st3 =>
        match dasOpt with
        | none => .ok none o3 (pushLog st3 ⟨.warning, skipMsgA da sas⟩)
        | some das =>
          match copyMappingA da sasm das o3 st3 with
          | .hang => .hang
          | .raised o4 st4 => .raised o4 st4
          | .ok m o4 st4 => .ok (some m) o4 (pushLog st4 ⟨.info, successMsgA da das⟩)

/-- Error message of the organization `copy_mapping` create loop. -/
def copyErrMsgO (dor : Resource) (das : AccountStore) : String :=
  "Failed to copy AccountStoreMapping from Organization: " ++ dor.name ++
    " to " ++ das.klass ++ " " ++ das.name

/-- Warning logged by the organization `migrate` when the destination
account store does not exist. -/
def skipMsgO (dor : Resource) (sas : AccountStore) : String :=
  "Skipping creation of AccountStoreMapping from Organization: " ++ dor.name ++
    " to " ++ sas.klass ++ " " ++ sas.name ++
    " (The destination AccountStore does not exist)"

/-- Info message logged by the organization `migrate` on success. -/
def successMsgO (dor : Resource) (das : AccountStore) : String :=
  "Successfully copied source AccountStoreMapping from Organization: " ++
    dor.name ++ " to " ++ das.klass ++ " " ++ das.name ++ "."

/-- The mapping created by the organization `copy_mapping` through
`do.account_store_mappings._client.organization_account_store_mappings.create`
(the payload carries `'organization': do` instead of `'application': da`;
the created resource still lands in the destination parent's mapping
collection). -/
def mkCreatedOrg (dor : Resource) (sasm : SourceMapping) (das : AccountStore) :
    AccountStoreMapping :=
  { href := "mapping-for:" ++ das.href
  , account_store := das
  , parent_href := dor.href
  , list_index := sasm.list_index
  , is_default_account_store := sasm.is_default_account_store
  , is_default_group_store := sasm.is_default_group_store }

/-- `OrganizationAccountStoreMappingMigrator.get_source_account_store`. -/
def getSourceAccountStoreO (sasm : SourceMapping) :
    List Bool → St → Res AccountStore :=
  withOp .getSourceAccountStore
    (retry .refreshStore (srcStoreErrMsg sasm) (fun st => (sasm.account_store, st)))

/-- `OrganizationAccountStoreMappingMigrator.get_destination_tenant`. -/
def getDestinationTenantO (dor : Resource) :
    List Bool → St → Res Tenant :=
  withOp .getDestinationTenant
    (retry .refreshTenant destTenantErrMsg (fun st => (dor.tenant, st)))

/-- `OrganizationAccountStoreMappingMigrator.get_destination_account_store`. -/
def getDestinationAccountStoreO (tenant : Tenant) (sas : AccountStore) :
    List Bool → St → Res (Option AccountStore) :=
  withOp .getDestinationAccountStore
    (retry .searchStores (destStoreErrMsg sas) (fun st => (destStoreOf tenant sas, st)))

/-- `OrganizationAccountStoreMappingMigrator.copy_mapping` (existing-check
compares `mapping.organization.href` with `do.href`). -/
def copyMappingO (dor : Resource) (sasm : SourceMapping) (das : AccountStore) :
    List Bool → St → Res AccountStoreMapping :=
  withOp .copyMapping (fun o st =>
    match o with
    | [] => .hang
    | true :: rest =>
      let st1 := pushEv st (.attempt .listMappings true)
      match findExisting das.href dor.href st1.destMappings with
      | some m => .ok m rest st1
      | none =>
        retry .createMapping (copyErrMsgO dor das)
          (fun s =>
            let m := mkCreatedOrg dor sasm das
            (m, { s with destMappings := s.destMappings ++ [m] }))
          rest st1
    | false :: rest => .raised rest (pushEv st (.attempt .listMappings false)))

/-- `OrganizationAccountStoreMappingMigrator.migrate`. -/
def migrateO (dor : Resource) (sasm : SourceMapping)
    (o : List Bool) (st : St) : Res (Option AccountStoreMapping) :=
  match getDestinationTenantO dor o st with
  | .hang => .hang
  | .raised o1 st1 => .raised o1 st1
  | .ok tenant o1 st1 =>
    match getSourceAccountStoreO sasm o1 st1 with
    | .hang => .hang
    | .raised o2 st2 => .raised o2 st2
    | .ok sas o2 st2 =>
      match getDestinationAccountStoreO tenant sas o2 st2 with
      | .hang => .hang
      | .raised o3 st3 => .raised o3 st3
      | .ok dasOpt o3 st3 =>
        match dasOpt with
        | none => .ok none o3 (pushLog st3 ⟨.warning, skipMsgO dor sas⟩)
        | some das =>
          match copyMappingO dor sasm das o3 st3 with
          | .hang => .hang
          | .raised o4 st4 => .raised o4 st4
          | .ok m o4 st4 => .ok (some m) o4 (pushLog st4 ⟨.info, successMsgO dor das⟩)

/-! ### Basic state lemmas -/

@[simp] theorem pushEv_destMappings (st : St) (e : Ev) :
    (pushEv st e).destMappings = st.destMappings := rfl

@[simp] theorem pushEv_logs (st : St) (e : Ev) :
    (pushEv st e).logs = st.logs := rfl

@[simp] theorem pushEv_events (st : St) (e : Ev) :
    (pushEv st e).events = st.events ++ [e] := rfl

@[simp] theorem pushLog_destMappings (st : St) (l : LogEntry) :
    (pushLog st l).destMappings = st.destMappings := rfl

@[simp] theorem pushLog_logs (st : St) (l : LogEntry) :
    (pushLog st l).logs = st.logs ++ [l] := rfl

@[simp] theorem pushLog_events (st : St) (l : LogEntry) :
    (pushLog st l).events = st.events := rfl

/-! ### Retry loop lemmas -/

/-- A retry loop never lets the exception escape: `Res.raised` is not a
possible outcome of `retry`. -/
theorem retry_ne_raised {α : Type} (c : RCall) (msg : String) (act : St → α × St) :
    ∀ (o : List Bool) (st : St) (o' : List Bool) (st' : St),
      retry c msg act o st ≠ Res.raised o' st'
  | [], _, _, _ => by simp [retry]
  | true :: _, _, _, _ => by simp [retry]
  | false :: rest, st, o', st' => by
    simpa [retry] using
      retry_ne_raised c msg act rest
        (pushLog (pushEv st (.attempt c false)) ⟨.error, msg⟩) o' st'

/-- State accumulated by `n` consecutive failed attempts of the call `c`:
`n` failure events and `n` error-log records. -/
def failLoopSt (c : RCall) (msg : String) (n : Nat) (st : St) : St :=
  { st with
      events := st.events ++ List.replicate n (Ev.attempt c false),
      logs := st.logs ++ List.replicate n (⟨LogLevel.error, msg⟩ : LogEntry) }

@[simp] theorem failLoopSt_destMappings (c : RCall) (msg : String) (n : Nat) (st : St) :
    (failLoopSt c msg n st).destMappings = st.destMappings := rfl

theorem failLoopSt_zero (c : RCall) (msg : String) (st : St) :
    failLoopSt c msg 0 st = st := by
  simp [failLoopSt]

theorem failLoopSt_step (c : RCall) (msg : String) (n : Nat) (st : St) :
    failLoopSt c msg n (pushLog (pushEv st (.attempt c false)) ⟨.error, msg⟩) =
      failLoopSt c msg (n + 1) st := by
  simp [failLoopSt, pushEv, pushLog, List.replicate_succ]

/-- Computation rule for a retry loop whose oracle fails `n` times and then
succeeds: the loop terminates, returns the value of the first successful
call, and leaves behind `n` logged errors and `n + 1` attempt events. -/
theorem retry_shape {α : Type} (c : RCall) (msg : String) (act : St → α × St) :
    ∀ (n : Nat) (rest : List Bool) (st : St),
      retry c msg act (List.replicate n false ++ true :: rest) st =
        Res.ok (act (pushEv (failLoopSt c msg n st) (Ev.attempt c true))).1 rest
          (act (pushEv (failLoopSt c msg n st) (Ev.attempt c true))).2
  | 0, rest, st => by
    simp [retry, failLoopSt_zero]
  | n + 1, rest, st => by
    rw [List.replicate_succ, List.cons_append]
    show retry c msg act (List.replicate n false ++ true :: rest)
        (pushLog (pushEv st (.attempt c false)) ⟨.error, msg⟩) = _
    rw [retry_shape c msg act n rest, failLoopSt_step]

/-- A successful retry returns the (state-independent) value of `act`. -/
theorem retry_ok_value {α : Type} {c : RCall} {msg : String} {act : St → α × St}
    {v : α} (hv : ∀ s, (act s).1 = v) :
    ∀ {o : List Bool} {st : St} {a : α} {o' : List Bool} {st' : St},
      retry c msg act o st = Res.ok a o' st' → a = v := by
  intro o
  induction o with
  | nil => intro st a o' st' h; simp [retry] at h
  | cons b rest ih =>
    intro st a o' st' h
    cases b with
    | true =>
      simp [retry] at h
      rw [← h.1, hv]
    | false => exact ih h

/-- Effect of a successful retry on the destination mapping collection,
for an action whose effect on that collection is `g`. -/
theorem retry_ok_mappings {α : Type} {c : RCall} {msg : String} {act : St → α × St}
    {g : List AccountStoreMapping → List AccountStoreMapping}
    (hg : ∀ s, ((act s).2).destMappings = g s.destMappings) :
    ∀ {o : List Bool} {st : St} {a : α} {o' : List Bool} {st' : St},
      retry c msg act o st = Res.ok a o' st' →
        st'.destMappings = g st.destMappings := by
  intro o
  induction o with
  | nil => intro st a o' st' h; simp [retry] at h
  | cons b rest ih =>
    intro st a o' st' h
    cases b with
    | true =>
      simp [retry] at h
      rw [← h.2.2, hg]
      simp
    | false =>
      have := ih h
      simpa using this

/-! ### Method-level lemmas (shared by both migrator classes) -/

/-- Final state of one of the three getter methods when the oracle fails
`n` times and then succeeds. -/
def phaseSt (op : OpName) (c : RCall) (msg : String) (n : Nat) (st : St) : St :=
  pushEv (pushEv (failLoopSt c msg n (pushEv st (Ev.begin op))) (Ev.attempt c true))
    (Ev.done op)

@[simp] theorem phaseSt_destMappings (op : OpName) (c : RCall) (msg : String)
    (n : Nat) (st : St) : (phaseSt op c msg n st).destMappings = st.destMappings := rfl

theorem getDestinationTenantA_shape (da : Resource) (n : Nat) (rest : List Bool) (st : St) :
    getDestinationTenantA da (List.replicate n false ++ true :: rest) st =
      Res.ok da.tenant rest (phaseSt .getDestinationTenant .refreshTenant destTenantErrMsg n st) := by
  unfold getDestinationTenantA withOp
  rw [retry_shape]
  rfl

theorem getSourceAccountStoreA_shape (sasm : SourceMapping) (n : Nat) (rest : List Bool) (st : St) :
    getSourceAccountStoreA sasm (List.replicate n false ++ true :: rest) st =
      Res.ok sasm.account_store rest
        (phaseSt .getSourceAccountStore .refreshStore (srcStoreErrMsg sasm) n st) := by
  unfold getSourceAccountStoreA withOp
  rw [retry_shape]
  rfl

theorem getDestinationAccountStoreA_shape (tenant : Tenant) (sas : AccountStore)
    (n : Nat) (rest : List Bool) (st : St) :
    getDestinationAccountStoreA tenant sas (List.replicate n false ++ true :: rest) st =
      Res.ok (destStoreOf tenant sas) rest
        (phaseSt .getDestinationAccountStore .searchStores (destStoreErrMsg sas) n st) := by
  unfold getDestinationAccountStoreA withOp
  rw [retry_shape]
  rfl

/-! ### Inversion lemmas for `withOp` -/

theorem withOp_ok_iff {α : Type} (op : OpName) (body : List Bool → St → Res α)
    (o : List Bool) (st : St) (a : α) (o' : List Bool) (st' : St) :
    withOp op body o st = Res.ok a o' st' ↔
      ∃ stb, body o (pushEv st (.begin op)) = Res.ok a o' stb ∧
        st' = pushEv stb (.done op) := by
  unfold withOp
  cases h : body o (pushEv st (.begin op)) with
  | ok a2 o2 st2 =>
    constructor
    · intro he
      refine ⟨st2, ?_, ?_⟩ <;> cases he <;> rfl
    · rintro ⟨stb, hb, rfl⟩
      cases hb
      rfl
  | raised o2 st2 =>
    constructor
    · intro he; cases he
    · rintro ⟨stb, hb, rfl⟩; cases hb
  | hang =>
    constructor
    · intro he; cases he
    · rintro ⟨stb, hb, rfl⟩; cases hb

theorem withOp_raised_iff {α : Type} (op : OpName) (body : List Bool → St → Res α)
    (o : List Bool) (st : St) (o' : List Bool) (st' : St) :
    withOp op body o st = Res.raised o' st' ↔
      body o (pushEv st (.begin op)) = Res.raised o' st' := by
  unfold withOp
  cases h : body o (pushEv st (.begin op)) with
  | ok a2 o2 st2 =>
    constructor
    · intro he; cases he
    · intro he; cases he
  | raised o2 st2 => exact Iff.rfl
  | hang =>
    constructor
    · intro he; cases he
    · intro he; cases he

/-! ### Getter inversion lemmas (arbitrary oracle) -/

theorem getDestinationTenantA_ok {da : Resource} {o : List Bool} {st : St}
    {t : Tenant} {o' : List Bool} {st' : St}
    (h : getDestinationTenantA da o st = Res.ok t o' st') :
    t = da.tenant ∧ st'.destMappings = st.destMappings := by
  unfold getDestinationTenantA at h
  rw [withOp_ok_iff] at h
  obtain ⟨stb, hb, rfl⟩ := h
  refine ⟨retry_ok_value (v := da.tenant) (fun s => rfl) hb, ?_⟩
  have hm := retry_ok_mappings (g := id) (fun s => rfl) hb
  simpa using hm

theorem getSourceAccountStoreA_ok {sasm : SourceMapping} {o : List Bool} {st : St}
    {a : AccountStore} {o' : List Bool} {st' : St}
    (h : getSourceAccountStoreA sasm o st = Res.ok a o' st') :
    a = sasm.account_store ∧ st'.destMappings = st.destMappings := by
  unfold getSourceAccountStoreA at h
  rw [withOp_ok_iff] at h
  obtain ⟨stb, hb, rfl⟩ := h
  refine ⟨retry_ok_value (v := sasm.account_store) (fun s => rfl) hb, ?_⟩
  have hm := retry_ok_mappings (g := id) (fun s => rfl) hb
  simpa using hm

theorem getDestinationAccountStoreA_ok {tenant : Tenant} {sas : AccountStore}
    {o : List Bool} {st : St} {r : Option AccountStore} {o' : List Bool} {st' : St}
    (h : getDestinationAccountStoreA tenant sas o st = Res.ok r o' st') :
    r = destStoreOf tenant sas ∧ st'.destMappings = st.destMappings := by
  unfold getDestinationAccountStoreA at h
  rw [withOp_ok_iff] at h
  obtain ⟨stb, hb, rfl⟩ := h
  refine ⟨retry_ok_value (v := destStoreOf tenant sas) (fun s => rfl) hb, ?_⟩
  have hm := retry_ok_mappings (g := id) (fun s => rfl) hb
  simpa using hm

theorem getDestinationTenantA_ne_raised (da : Resource) (o : List Bool) (st : St)
    (o' : List Bool) (st' : St) :
    getDestinationTenantA da o st ≠ Res.raised o' st' := by
  unfold getDestinationTenantA
  intro h
  rw [withOp_raised_iff] at h
  exact retry_ne_raised _ _ _ _ _ _ _ h

theorem getSourceAccountStoreA_ne_raised (sasm : SourceMapping) (o : List Bool) (st : St)
    (o' : List Bool) (st' : St) :
    getSourceAccountStoreA sasm o st ≠ Res.raised o' st' := by
  unfold getSourceAccountStoreA
  intro h
  rw [withOp_raised_iff] at h
  exact retry_ne_raised _ _ _ _ _ _ _ h

theorem getDestinationAccountStoreA_ne_raised (tenant : Tenant) (sas : AccountStore)
    (o : List Bool) (st : St) (o' : List Bool) (st' : St) :
    getDestinationAccountStoreA tenant sas o st ≠ Res.raised o' st' := by
  unfold getDestinationAccountStoreA
  intro h
  rw [withOp_raised_iff] at h
  exact retry_ne_raised _ _ _ _ _ _ _ h

/-! ### `copy_mapping` lemmas -/

/-- Append a freshly created mapping to the destination collection. -/
def addMapping (st : St) (m : AccountStoreMapping) : St :=
  { st with destMappings := st.destMappings ++ [m] }

@[simp] theorem addMapping_destMappings (st : St) (m : AccountStoreMapping) :
    (addMapping st m).destMappings = st.destMappings ++ [m] := rfl

@[simp] theorem addMapping_logs (st : St) (m : AccountStoreMapping) :
    (addMapping st m).logs = st.logs := rfl

@[simp] theorem addMapping_events (st : St) (m : AccountStoreMapping) :
    (addMapping st m).events = st.events := rfl

/-- Final state of `copy_mapping` when no equivalent mapping exists: the
listing succeeds, the create call fails `d` times and then succeeds,
appending the created mapping `m`. -/
def createPhaseSt (msg : String) (d : Nat) (m : AccountStoreMapping) (st : St) : St :=
  pushEv
    (addMapping
      (pushEv
        (failLoopSt .createMapping msg d
          (pushEv (pushEv st (Ev.begin .copyMapping)) (Ev.attempt .listMappings true)))
        (Ev.attempt .createMapping true))
      m)
    (Ev.done .copyMapping)

/-- Final state of `copy_mapping` when an equivalent mapping already
exists: only the listing call runs. -/
def copyFoundSt (st : St) : St :=
  pushEv (pushEv (pushEv st (Ev.begin .copyMapping)) (Ev.attempt .listMappings true))
    (Ev.done .copyMapping)

theorem copyMappingA_found (da : Resource) (sasm : SourceMapping) (das : AccountStore)
    (rest : List Bool) (st : St) (m : AccountStoreMapping)
    (h : findExisting das.href da.href st.destMappings = some m) :
    copyMappingA da sasm das (true :: rest) st = Res.ok m rest (copyFoundSt st) := by
  unfold copyMappingA withOp
  simp only [pushEv_destMappings, h]
  rfl

theorem copyMappingA_create (da : Resource) (sasm : SourceMapping) (das : AccountStore)
    (d : Nat) (rest : List Bool) (st : St)
    (h : findExisting das.href da.href st.destMappings = none) :
    copyMappingA da sasm das (true :: (List.replicate d false ++ true :: rest)) st =
      Res.ok (mkCreatedApp da sasm das) rest
        (createPhaseSt (copyErrMsgA da das) d (mkCreatedApp da sasm das) st) := by
  unfold copyMappingA withOp
  simp only [pushEv_destMappings, h]
  rw [retry_shape]
  rfl

theorem copyMappingO_found (dor : Resource) (sasm : SourceMapping) (das : AccountStore)
    (rest : List Bool) (st : St) (m : AccountStoreMapping)
    (h : findExisting das.href dor.href st.destMappings = some m) :
    copyMappingO dor sasm das (true :: rest) st = Res.ok m rest (copyFoundSt st) := by
  unfold copyMappingO withOp
  simp only [pushEv_destMappings, h]
  rfl

theorem copyMappingO_create (dor : Resource) (sasm : SourceMapping) (das : AccountStore)
    (d : Nat) (rest : List Bool) (st : St)
    (h : findExisting das.href dor.href st.destMappings = none) :
    copyMappingO dor sasm das (true :: (List.replicate d false ++ true :: rest)) st =
      Res.ok (mkCreatedOrg dor sasm das) rest
        (createPhaseSt (copyErrMsgO dor das) d (mkCreatedOrg dor sasm das) st) := by
  unfold copyMappingO withOp
  simp only [pushEv_destMappings, h]
  rw [retry_shape]
  rfl

theorem copyMappingA_raised {da : Resource} {sasm : SourceMapping} {das : AccountStore}
    {o : List Bool} {st : St} {o' : List Bool} {st' : St}
    (h : copyMappingA da sasm das o st = Res.raised o' st') :
    ∃ rest, o = false :: rest ∧ o' = rest ∧
      st' = pushEv (pushEv st (Ev.begin .copyMapping)) (Ev.attempt .listMappings false) := by
  unfold copyMappingA at h
  rw [withOp_raised_iff] at h
  match o with
  | [] => cases h
  | true :: rest =>
    simp only [] at h
    cases hf : findExisting das.href da.href
        (pushEv (pushEv st (Ev.begin OpName.copyMapping)) (Ev.attempt RCall.listMappings true)).destMappings with
    | some m => rw [hf] at h; cases h
    | none =>
      rw [hf] at h
      exact absurd h (retry_ne_raised _ _ _ _ _ _ _)
  | false :: rest =>
    refine ⟨rest, rfl, ?_, ?_⟩ <;> cases h <;> rfl

theorem copyMappingA_ok {da : Resource} {sasm : SourceMapping} {das : AccountStore}
    {o : List Bool} {st : St} {m : AccountStoreMapping} {o' : List Bool} {st' : St}
    (h : copyMappingA da sasm das o st = Res.ok m o' st') :
    (findExisting das.href da.href st.destMappings = some m ∧
      st'.destMappings = st.destMappings) ∨
    (findExisting das.href da.href st.destMappings = none ∧
      m = mkCreatedApp da sasm das ∧
      st'.destMappings = st.destMappings ++ [m]) := by
  unfold copyMappingA at h
  rw [withOp_ok_iff] at h
  obtain ⟨stb, hb, rfl⟩ := h
  match o with
  | [] => cases hb
  | false :: rest => cases hb
  | true :: rest =>
    simp only [] at hb
    cases hf : findExisting das.href da.href
        (pushEv (pushEv st (Ev.begin OpName.copyMapping)) (Ev.attempt RCall.listMappings true)).destMappings with
    | some m0 =>
      rw [hf] at hb
      cases hb
      left
      refine ⟨by simpa using hf, ?_⟩
      simp
    | none =>
      rw [hf] at hb
      right
      have hv : m = mkCreatedApp da sasm das := retry_ok_value (v := mkCreatedApp da sasm das) (fun s => rfl) hb
      have hm := retry_ok_mappings
        (g := fun l => l ++ [mkCreatedApp da sasm das]) (fun s => rfl) hb
      subst hv
      refine ⟨by simpa using hf, rfl, ?_⟩
      simpa using hm

/-! ### `migrate` computation lemmas -/

/-- The two migrator classes share the getter code verbatim; the embedded
getters are definitionally equal. -/
theorem getSourceAccountStoreO_eq : @getSourceAccountStoreO = @getSourceAccountStoreA := rfl

theorem getDestinationTenantO_eq : @getDestinationTenantO = @getDestinationTenantA := rfl

theorem getDestinationAccountStoreO_eq :
    @getDestinationAccountStoreO = @getDestinationAccountStoreA := rfl

/-- Oracle in which the three getter loops fail `a`, `b`, `c` times before
succeeding, followed by `tail`. -/
def shape3 (a b c : Nat) (tail : List Bool) : List Bool :=
  List.replicate a false ++ true ::
    (List.replicate b false ++ true :: (List.replicate c false ++ true :: tail))

/-- State after the three getter methods of `migrate` have completed, with
`a`, `b`, `c` failed attempts respectively (the destination resource is not
read by the getters beyond its tenant, so it does not appear). -/
def threePhaseSt (_da : Resource) (sasm : SourceMapping) (a b c : Nat) (st : St) : St :=
  phaseSt .getDestinationAccountStore .searchStores (destStoreErrMsg sasm.account_store) c
    (phaseSt .getSourceAccountStore .refreshStore (srcStoreErrMsg sasm) b
      (phaseSt .getDestinationTenant .refreshTenant destTenantErrMsg a st))

@[simp] theorem threePhaseSt_destMappings (da : Resource) (sasm : SourceMapping)
    (a b c : Nat) (st : St) :
    (threePhaseSt da sasm a b c st).destMappings = st.destMappings := rfl

theorem threePhaseSt_def (da : Resource) (sasm : SourceMapping) (a b c : Nat) (st : St) :
    threePhaseSt da sasm a b c st =
      phaseSt .getDestinationAccountStore .searchStores (destStoreErrMsg sasm.account_store) c
        (phaseSt .getSourceAccountStore .refreshStore (srcStoreErrMsg sasm) b
          (phaseSt .getDestinationTenant .refreshTenant destTenantErrMsg a st)) := rfl

theorem migrateA_skip (da : Resource) (sasm : SourceMapping) (a b c : Nat)
    (rest : List Bool) (st : St)
    (h : destStoreOf da.tenant sasm.account_store = none) :
    migrateA da sasm (shape3 a b c rest) st =
      Res.ok none rest
        (pushLog (threePhaseSt da sasm a b c st)
          ⟨.warning, skipMsgA da sasm.account_store⟩) := by
  simp only [migrateA, shape3, getDestinationTenantA_shape, getSourceAccountStoreA_shape,
    getDestinationAccountStoreA_shape, h, threePhaseSt]

theorem migrateA_found (da : Resource) (sasm : SourceMapping) (das : AccountStore)
    (a b c : Nat) (rest : List Bool) (st : St) (m : AccountStoreMapping)
    (h1 : destStoreOf da.tenant sasm.account_store = some das)
    (h2 : findExisting das.href da.href st.destMappings = some m) :
    migrateA da sasm (shape3 a b c (true :: rest)) st =
      Res.ok (some m) rest
        (pushLog (copyFoundSt (threePhaseSt da sasm a b c st))
          ⟨.info, successMsgA da das⟩) := by
  have h2' : findExisting das.href da.href
      (threePhaseSt da sasm a b c st).destMappings = some m := by simpa using h2
  simp only [migrateA, shape3, getDestinationTenantA_shape, getSourceAccountStoreA_shape,
    getDestinationAccountStoreA_shape, h1]
  rw [← threePhaseSt_def, copyMappingA_found da sasm das rest _ m h2']

theorem migrateA_create (da : Resource) (sasm : SourceMapping) (das : AccountStore)
    (a b c d : Nat) (rest : List Bool) (st : St)
    (h1 : destStoreOf da.tenant sasm.account_store = some das)
    (h2 : findExisting das.href da.href st.destMappings = none) :
    migrateA da sasm (shape3 a b c (true :: (List.replicate d false ++ true :: rest))) st =
      Res.ok (some (mkCreatedApp da sasm das)) rest
        (pushLog
          (createPhaseSt (copyErrMsgA da das) d (mkCreatedApp da sasm das)
            (threePhaseSt da sasm a b c st))
          ⟨.info, successMsgA da das⟩) := by
  have h2' : findExisting das.href da.href
      (threePhaseSt da sasm a b c st).destMappings = none := by simpa using h2
  simp only [migrateA, shape3, getDestinationTenantA_shape, getSourceAccountStoreA_shape,
    getDestinationAccountStoreA_shape, h1]
  rw [← threePhaseSt_def, copyMappingA_create da sasm das d rest _ h2']

theorem migrateO_skip (dor : Resource) (sasm : SourceMapping) (a b c : Nat)
    (rest : List Bool) (st : St)
    (h : destStoreOf dor.tenant sasm.account_store = none) :
    migrateO dor sasm (shape3 a b c rest) st =
      Res.ok none rest
        (pushLog (threePhaseSt dor sasm a b c st)
          ⟨.warning, skipMsgO dor sasm.account_store⟩) := by
  simp only [migrateO, shape3, getSourceAccountStoreO_eq, getDestinationTenantO_eq,
    getDestinationAccountStoreO_eq, getDestinationTenantA_shape, getSourceAccountStoreA_shape,
    getDestinationAccountStoreA_shape, h, threePhaseSt]

theorem migrateO_found (dor : Resource) (sasm : SourceMapping) (das : AccountStore)
    (a b c : Nat) (rest : List Bool) (st : St) (m : AccountStoreMapping)
    (h1 : destStoreOf dor.tenant sasm.account_store = some das)
    (h2 : findExisting das.href dor.href st.destMappings = some m) :
    migrateO dor sasm (shape3 a b c (true :: rest)) st =
      Res.ok (some m) rest
        (pushLog (copyFoundSt (threePhaseSt dor sasm a b c st))
          ⟨.info, successMsgO dor das⟩) := by
  have h2' : findExisting das.href dor.href
      (threePhaseSt dor sasm a b c st).destMappings = some m := by simpa using h2
  simp only [migrateO, shape3, getSourceAccountStoreO_eq, getDestinationTenantO_eq,
    getDestinationAccountStoreO_eq, getDestinationTenantA_shape, getSourceAccountStoreA_shape,
    getDestinationAccountStoreA_shape, h1]
  rw [← threePhaseSt_def, copyMappingO_found dor sasm das rest _ m h2']

theorem migrateO_create (dor : Resource) (sasm : SourceMapping) (das : AccountStore)
    (a b c d : Nat) (rest : List Bool) (st : St)
    (h1 : destStoreOf dor.tenant sasm.account_store = some das)
    (h2 : findExisting das.href dor.href st.destMappings = none) :
    migrateO dor sasm (shape3 a b c (true :: (List.replicate d false ++ true :: rest))) st =
      Res.ok (some (mkCreatedOrg dor sasm das)) rest
        (pushLog
          (createPhaseSt (copyErrMsgO dor das) d (mkCreatedOrg dor sasm das)
            (threePhaseSt dor sasm a b c st))
          ⟨.info, successMsgO dor das⟩) := by
  have h2' : findExisting das.href dor.href
      (threePhaseSt dor sasm a b c st).destMappings = none := by simpa using h2
  simp only [migrateO, shape3, getSourceAccountStoreO_eq, getDestinationTenantO_eq,
    getDestinationAccountStoreO_eq, getDestinationTenantA_shape, getSourceAccountStoreA_shape,
    getDestinationAccountStoreA_shape, h1]
  rw [← threePhaseSt_def, copyMappingO_create dor sasm das d rest _ h2']

/-! ### Event trace helpers -/

/-- Events generated by one retried method: entry marker, `n` failed
attempts, one successful attempt, exit marker. -/
def opSpanEv (op : OpName) (c : RCall) (n : Nat) : List Ev :=
  [Ev.begin op] ++ List.replicate n (Ev.attempt c false) ++
    [Ev.attempt c true] ++ [Ev.done op]

@[simp] theorem phaseSt_events (op : OpName) (c : RCall) (msg : String) (n : Nat) (st : St) :
    (phaseSt op c msg n st).events = st.events ++ opSpanEv op c n := by
  simp [phaseSt, failLoopSt, opSpanEv, pushEv, List.append_assoc]

/-- Events of the three getter methods of `migrate`. -/
def tpTrace (a b c : Nat) : List Ev :=
  opSpanEv .getDestinationTenant .refreshTenant a ++
    opSpanEv .getSourceAccountStore .refreshStore b ++
    opSpanEv .getDestinationAccountStore .searchStores c

@[simp] theorem threePhaseSt_events (da : Resource) (sasm : SourceMapping)
    (a b c : Nat) (st : St) :
    (threePhaseSt da sasm a b c st).events = st.events ++ tpTrace a b c := by
  simp [threePhaseSt, tpTrace, List.append_assoc]

/-- Events of `copy_mapping` when an equivalent mapping already exists. -/
def copySpanFound : List Ev :=
  [Ev.begin .copyMapping, Ev.attempt .listMappings true, Ev.done .copyMapping]

@[simp] theorem copyFoundSt_events (st : St) :
    (copyFoundSt st).events = st.events ++ copySpanFound := by
  simp [copyFoundSt, copySpanFound, pushEv, List.append_assoc]

/-- Events of `copy_mapping` when the create loop runs, failing `d` times. -/
def copySpanCreate (d : Nat) : List Ev :=
  [Ev.begin .copyMapping, Ev.attempt .listMappings true] ++
    List.replicate d (Ev.attempt .createMapping false) ++
    [Ev.attempt .createMapping true] ++ [Ev.done .copyMapping]

@[simp] theorem createPhaseSt_events (msg : String) (d : Nat)
    (m : AccountStoreMapping) (st : St) :
    (createPhaseSt msg d m st).events = st.events ++ copySpanCreate d := by
  simp [createPhaseSt, copySpanCreate, failLoopSt, pushEv, List.append_assoc]

@[simp] theorem createPhaseSt_destMappings (msg : String) (d : Nat)
    (m : AccountStoreMapping) (st : St) :
    (createPhaseSt msg d m st).destMappings = st.destMappings ++ [m] := rfl

@[simp] theorem copyFoundSt_destMappings (st : St) :
    (copyFoundSt st).destMappings = st.destMappings := rfl

/-- The methods entered, in trace order. -/
def opsBegun (evs : List Ev) : List OpName :=
  evs.filterMap (fun e =>
    match e with
    | .begin op => some op
    | _ => none)

/-! ### Concrete fixtures (used by witnesses and counterexamples) -/

/-- A source directory in the source tenant. -/
def exSrcStore : AccountStore :=
  { href := "https://api.stormpath.com/v1/directories/src1"
  , name := "Main Directory"
  , klass := "Directory" }

/-- A directory with the same name in the destination tenant. -/
def exDestStore : AccountStore :=
  { href := "https://api.stormpath.com/v1/directories/dst1"
  , name := "Main Directory"
  , klass := "Directory" }

/-- A destination tenant containing the matching directory. -/
def exTenant : Tenant :=
  { directories := [exDestStore], groups := [], organizations := [] }

/-- A destination application whose tenant has the matching directory. -/
def exApp : Resource :=
  { href := "https://api.stormpath.com/v1/applications/app1"
  , name := "My App"
  , tenant := exTenant }

/-- The source account-store mapping being migrated. -/
def exSasm : SourceMapping :=
  { href := "https://api.stormpath.com/v1/accountStoreMappings/m1"
  , account_store := exSrcStore
  , list_index := 2
  , is_default_account_store := true
  , is_default_group_store := false }

/-- A destination application whose tenant has no matching store. -/
def exAppNoStore : Resource :=
  { href := "https://api.stormpath.com/v1/applications/app2"
  , name := "Empty App"
  , tenant := { directories := [], groups := [], organizations := [] } }

/-- Initial world: empty destination mapping collection, no logs, no
events. -/
def st0 : St := { destMappings := [], logs := [], events := [] }

/-- A pre-existing destination mapping equivalent to the one being
migrated (same account store href, same parent href). -/
def exExisting : AccountStoreMapping :=
  { href := "https://api.stormpath.com/v1/accountStoreMappings/d1"
  , account_store := exDestStore
  , parent_href := exApp.href
  , list_index := 0
  , is_default_account_store := false
  , is_default_group_store := false }

/-- World in which the equivalent mapping already exists. -/
def stWithExisting : St := { destMappings := [exExisting], logs := [], events := [] }

/-! ### Claim C4 -/

/-- C4: `get_destination_account_store` resolves the destination object by
name: it searches, in the destination tenant, the collection corresponding
to the source account store's type (`directories` for `Directory`,
otherwise the lowercased class name plus `s`) for resources whose name
equals the source account store's name, and returns the first match when
the search result is non-empty and `None` when it is empty.  Stated for
both migrator classes, for any number `n` of failed attempts before the
search succeeds. -/
theorem C4_destination_store_lookup_by_name :
    (∀ (tenant : Tenant) (sas : AccountStore) (n : Nat) (rest : List Bool) (st : St),
      getDestinationAccountStoreA tenant sas (List.replicate n false ++ true :: rest) st =
        Res.ok ((searchByName (tenant.getattr (collectionName sas.klass)) sas.name).head?)
          rest (phaseSt .getDestinationAccountStore .searchStores (destStoreErrMsg sas) n st)) ∧
    (∀ (tenant : Tenant) (sas : AccountStore) (n : Nat) (rest : List Bool) (st : St),
      getDestinationAccountStoreO tenant sas (List.replicate n false ++ true :: rest) st =
        Res.ok ((searchByName (tenant.getattr (collectionName sas.klass)) sas.name).head?)
          rest (phaseSt .getDestinationAccountStore .searchStores (destStoreErrMsg sas) n st)) ∧
    collectionName "Directory" = "directories" ∧
    collectionName "Group" = "groups" ∧
    collectionName "Organization" = "organizations" := by
  refine ⟨?_, ?_, rfl, by decide, by decide⟩
  · intro tenant sas n rest st
    exact getDestinationAccountStoreA_shape tenant sas n rest st
  · intro tenant sas n rest st
    rw [getDestinationAccountStoreO_eq]
    exact getDestinationAccountStoreA_shape tenant sas n rest st

/-! ### Claim C1 -/

/-- C1: when the destination parent's `account_store_mappings` collection
already contains a mapping whose account-store href equals the resolved
destination store's href and whose parent href equals the destination
parent's href, `copy_mapping` returns that existing mapping, leaves the
collection unchanged, and issues no create call (its only new events are
the listing of the collection).  Stated for both migrator classes. -/
theorem C1_copy_mapping_returns_existing :
    (∀ (da : Resource) (sasm : SourceMapping) (das : AccountStore) (rest : List Bool)
        (st : St) (m : AccountStoreMapping),
      findExisting das.href da.href st.destMappings = some m →
        copyMappingA da sasm das (true :: rest) st = Res.ok m rest (copyFoundSt st) ∧
        (copyFoundSt st).destMappings = st.destMappings ∧
        (copyFoundSt st).events = st.events ++
          [Ev.begin .copyMapping, Ev.attempt .listMappings true, Ev.done .copyMapping]) ∧
    (∀ (dor : Resource) (sasm : SourceMapping) (das : AccountStore) (rest : List Bool)
        (st : St) (m : AccountStoreMapping),
      findExisting das.href dor.href st.destMappings = some m →
        copyMappingO dor sasm das (true :: rest) st = Res.ok m rest (copyFoundSt st) ∧
        (copyFoundSt st).destMappings = st.destMappings ∧
        (copyFoundSt st).events = st.events ++
          [Ev.begin .copyMapping, Ev.attempt .listMappings true, Ev.done .copyMapping]) := by
  constructor
  · intro da sasm das rest st m h
    refine ⟨copyMappingA_found da sasm das rest st m h, rfl, ?_⟩
    simp [copySpanFound]
  · intro dor sasm das rest st m h
    refine ⟨copyMappingO_found dor sasm das rest st m h, rfl, ?_⟩
    simp [copySpanFound]

/-- Witness for C1 at a concrete input: the destination application
already holds an equivalent mapping, and `copy_mapping` returns it. -/
theorem C1_copy_mapping_returns_existing_witness :
    copyMappingA exApp exSasm exDestStore (true :: []) stWithExisting =
        Res.ok exExisting [] (copyFoundSt stWithExisting) ∧
      (copyFoundSt stWithExisting).destMappings = stWithExisting.destMappings ∧
      (copyFoundSt stWithExisting).events = stWithExisting.events ++
        [Ev.begin .copyMapping, Ev.attempt .listMappings true, Ev.done .copyMapping] :=
  C1_copy_mapping_returns_existing.1 exApp exSasm exDestStore [] stWithExisting exExisting
    (by decide)

/-! ### Claim C2 -/

/-- C2: when no equivalent mapping exists at the destination, the mapping
created by `copy_mapping` is matching: its `list_index`,
`is_default_account_store` and `is_default_group_store` equal those of the
source mapping, its account store is exactly the resolved destination
store and its parent is exactly the destination parent; it is appended to
the destination collection.  Stated for both migrator classes, for any
number `d` of failed create attempts before success. -/
theorem C2_created_mapping_matches_source :
    (∀ (da : Resource) (sasm : SourceMapping) (das : AccountStore) (d : Nat)
        (rest : List Bool) (st : St),
      findExisting das.href da.href st.destMappings = none →
        copyMappingA da sasm das (true :: (List.replicate d false ++ true :: rest)) st =
          Res.ok (mkCreatedApp da sasm das) rest
            (createPhaseSt (copyErrMsgA da das) d (mkCreatedApp da sasm das) st) ∧
        (createPhaseSt (copyErrMsgA da das) d (mkCreatedApp da sasm das) st).destMappings =
          st.destMappings ++ [mkCreatedApp da sasm das] ∧
        (mkCreatedApp da sasm das).list_index = sasm.list_index ∧
        (mkCreatedApp da sasm das).is_default_account_store = sasm.is_default_account_store ∧
        (mkCreatedApp da sasm das).is_default_group_store = sasm.is_default_group_store ∧
        (mkCreatedApp da sasm das).account_store = das ∧
        (mkCreatedApp da sasm das).parent_href = da.href) ∧
    (∀ (dor : Resource) (sasm : SourceMapping) (das : AccountStore) (d : Nat)
        (rest : List Bool) (st : St),
      findExisting das.href dor.href st.destMappings = none →
        copyMappingO dor sasm das (true :: (List.replicate d false ++ true :: rest)) st =
          Res.ok (mkCreatedOrg dor sasm das) rest
            (createPhaseSt (copyErrMsgO dor das) d (mkCreatedOrg dor sasm das) st) ∧
        (createPhaseSt (copyErrMsgO dor das) d (mkCreatedOrg dor sasm das) st).destMappings =
          st.destMappings ++ [mkCreatedOrg dor sasm das] ∧
        (mkCreatedOrg dor sasm das).list_index = sasm.list_index ∧
        (mkCreatedOrg dor sasm das).is_default_account_store = sasm.is_default_account_store ∧
        (mkCreatedOrg dor sasm das).is_default_group_store = sasm.is_default_group_store ∧
        (mkCreatedOrg dor sasm das).account_store = das ∧
        (mkCreatedOrg dor sasm das).parent_href = dor.href) := by
  constructor
  · intro da sasm das d rest st h
    exact ⟨copyMappingA_create da sasm das d rest st h, rfl, rfl, rfl, rfl, rfl, rfl⟩
  · intro dor sasm das d rest st h
    exact ⟨copyMappingO_create dor sasm das d rest st h, rfl, rfl, rfl, rfl, rfl, rfl⟩

/-- Witness for C2 at a concrete input: the destination collection is
empty, and `copy_mapping` creates the matching mapping. -/
theorem C2_created_mapping_matches_source_witness :
    copyMappingA exApp exSasm exDestStore (true :: (List.replicate 0 false ++ true :: [])) st0 =
        Res.ok (mkCreatedApp exApp exSasm exDestStore)
          [] (createPhaseSt (copyErrMsgA exApp exDestStore) 0
            (mkCreatedApp exApp exSasm exDestStore) st0) ∧
      (createPhaseSt (copyErrMsgA exApp exDestStore) 0
          (mkCreatedApp exApp exSasm exDestStore) st0).destMappings =
        st0.destMappings ++ [mkCreatedApp exApp exSasm exDestStore] ∧
      (mkCreatedApp exApp exSasm exDestStore).list_index = exSasm.list_index ∧
      (mkCreatedApp exApp exSasm exDestStore).is_default_account_store =
        exSasm.is_default_account_store ∧
      (mkCreatedApp exApp exSasm exDestStore).is_default_group_store =
        exSasm.is_default_group_store ∧
      (mkCreatedApp exApp exSasm exDestStore).account_store = exDestStore ∧
      (mkCreatedApp exApp exSasm exDestStore).parent_href = exApp.href :=
  C2_created_mapping_matches_source.1 exApp exSasm exDestStore 0 [] st0 (by decide)

/-! ### Claim C8 -/

/-- C8: when no destination account store with the source store's name
exists (the name lookup returns `None`), `migrate` logs a warning, returns
`None`, and issues no create call, leaving the destination mapping
collection unchanged.  Stated for both migrator classes, for any number of
retries in the three getter loops. -/
theorem C8_skip_when_destination_store_missing :
    (∀ (da : Resource) (sasm : SourceMapping) (a b c : Nat) (rest : List Bool) (st : St),
      destStoreOf da.tenant sasm.account_store = none →
        migrateA da sasm (shape3 a b c rest) st =
          Res.ok none rest
            (pushLog (threePhaseSt da sasm a b c st)
              ⟨.warning, skipMsgA da sasm.account_store⟩) ∧
        (pushLog (threePhaseSt da sasm a b c st)
            ⟨.warning, skipMsgA da sasm.account_store⟩).destMappings = st.destMappings ∧
        (pushLog (threePhaseSt da sasm a b c st)
            ⟨.warning, skipMsgA da sasm.account_store⟩).logs.getLast? =
          some ⟨.warning, skipMsgA da sasm.account_store⟩ ∧
        (pushLog (threePhaseSt da sasm a b c st)
            ⟨.warning, skipMsgA da sasm.account_store⟩).events = st.events ++ tpTrace a b c ∧
        ∀ b2, Ev.attempt .createMapping b2 ∉ tpTrace a b c) ∧
    (∀ (dor : Resource) (sasm : SourceMapping) (a b c : Nat) (rest : List Bool) (st : St),
      destStoreOf dor.tenant sasm.account_store = none →
        migrateO dor sasm (shape3 a b c rest) st =
          Res.ok none rest
            (pushLog (threePhaseSt dor sasm a b c st)
              ⟨.warning, skipMsgO dor sasm.account_store⟩) ∧
        (pushLog (threePhaseSt dor sasm a b c st)
            ⟨.warning, skipMsgO dor sasm.account_store⟩).destMappings = st.destMappings ∧
        (pushLog (threePhaseSt dor sasm a b c st)
            ⟨.warning, skipMsgO dor sasm.account_store⟩).logs.getLast? =
          some ⟨.warning, skipMsgO dor sasm.account_store⟩ ∧
        (pushLog (threePhaseSt dor sasm a b c st)
            ⟨.warning, skipMsgO dor sasm.account_store⟩).events = st.events ++ tpTrace a b c ∧
        ∀ b2, Ev.attempt .createMapping b2 ∉ tpTrace a b c) := by
  constructor
  · intro da sasm a b c rest st h
    refine ⟨migrateA_skip da sasm a b c rest st h, rfl, ?_, ?_, ?_⟩
    · simp [List.getLast?_concat]
    · simp
    · intro b2
      simp [tpTrace, opSpanEv, List.mem_append, List.mem_replicate]
  · intro dor sasm a b c rest st h
    refine ⟨migrateO_skip dor sasm a b c rest st h, rfl, ?_, ?_, ?_⟩
    · simp [List.getLast?_concat]
    · simp
    · intro b2
      simp [tpTrace, opSpanEv, List.mem_append, List.mem_replicate]

/-- Witness for C8 at a concrete input: the destination tenant has no
store named after the source store. -/
theorem C8_skip_when_destination_store_missing_witness :
    migrateA exAppNoStore exSasm (shape3 0 0 0 []) st0 =
        Res.ok none []
          (pushLog (threePhaseSt exAppNoStore exSasm 0 0 0 st0)
            ⟨.warning, skipMsgA exAppNoStore exSasm.account_store⟩) ∧
      (pushLog (threePhaseSt exAppNoStore exSasm 0 0 0 st0)
          ⟨.warning, skipMsgA exAppNoStore exSasm.account_store⟩).destMappings =
        st0.destMappings ∧
      (pushLog (threePhaseSt exAppNoStore exSasm 0 0 0 st0)
          ⟨.warning, skipMsgA exAppNoStore exSasm.account_store⟩).logs.getLast? =
        some ⟨.warning, skipMsgA exAppNoStore exSasm.account_store⟩ ∧
      (pushLog (threePhaseSt exAppNoStore exSasm 0 0 0 st0)
          ⟨.warning, skipMsgA exAppNoStore exSasm.account_store⟩).events =
        st0.events ++ tpTrace 0 0 0 ∧
      ∀ b2, Ev.attempt .createMapping b2 ∉ tpTrace 0 0 0 :=
  C8_skip_when_destination_store_missing.1 exAppNoStore exSasm 0 0 0 [] st0 (by decide)

/-! ### Claim C6 -/

/-- Event trace of a complete `migrate` run whose getter loops fail `a`,
`b`, `c` times, whose listing succeeds, and whose create loop (when
reached) fails `d` times: three getter spans, then a copy span exactly
when the destination store resolves. -/
def migTrace (p : Resource) (sasm : SourceMapping) (a b c d : Nat)
    (ms : List AccountStoreMapping) : List Ev :=
  tpTrace a b c ++
    match destStoreOf p.tenant sasm.account_store with
    | none => []
    | some das =>
      match findExisting das.href p.href ms with
      | some _ => copySpanFound
      | none => copySpanCreate d

/-- Counterexample to C6 as stated: an invocation of `migrate` in which
the destination store does not resolve performs only three of the four
operations (`copy_mapping` is never entered), so "exactly four
remote-resource operations per invocation" fails. -/
theorem C6_counterexample :
    opsBegun (Res.finalEvents (migrateA exAppNoStore exSasm [true, true, true] st0)) =
        [OpName.getDestinationTenant, OpName.getSourceAccountStore,
          OpName.getDestinationAccountStore] ∧
      (opsBegun (Res.finalEvents (migrateA exAppNoStore exSasm [true, true, true] st0))).length ≠
        4 := by
  constructor
  · decide
  · decide

/-- C6 (amended): `migrate` performs at most four remote-resource
operations, always in the fixed order destination tenant, source account
store, destination account store, copy mapping, each completing before the
next begins; the fourth (`copy_mapping`) runs exactly when the destination
account store resolves.  The final event trace is fully characterized for
both migrator classes. -/
theorem C6_sequential_operations :
    (∀ (da : Resource) (sasm : SourceMapping) (a b c d : Nat) (rest : List Bool) (st : St),
      Res.finalEvents
          (migrateA da sasm
            (shape3 a b c (true :: (List.replicate d false ++ true :: rest))) st) =
        st.events ++ migTrace da sasm a b c d st.destMappings) ∧
    (∀ (dor : Resource) (sasm : SourceMapping) (a b c d : Nat) (rest : List Bool) (st : St),
      Res.finalEvents
          (migrateO dor sasm
            (shape3 a b c (true :: (List.replicate d false ++ true :: rest))) st) =
        st.events ++ migTrace dor sasm a b c d st.destMappings) := by
  constructor
  · intro da sasm a b c d rest st
    cases hds : destStoreOf da.tenant sasm.account_store with
    | none =>
      rw [migrateA_skip da sasm a b c _ st hds]
      simp [Res.finalEvents, migTrace, hds]
    | some das =>
      cases hf : findExisting das.href da.href st.destMappings with
      | some m =>
        rw [migrateA_found da sasm das a b c _ st m hds hf]
        simp [Res.finalEvents, migTrace, hds, hf, List.append_assoc]
      | none =>
        rw [migrateA_create da sasm das a b c d rest st hds hf]
        simp [Res.finalEvents, migTrace, hds, hf, List.append_assoc]
  · intro dor sasm a b c d rest st
    cases hds : destStoreOf dor.tenant sasm.account_store with
    | none =>
      rw [migrateO_skip dor sasm a b c _ st hds]
      simp [Res.finalEvents, migTrace, hds]
    | some das =>
      cases hf : findExisting das.href dor.href st.destMappings with
      | some m =>
        rw [migrateO_found dor sasm das a b c _ st m hds hf]
        simp [Res.finalEvents, migTrace, hds, hf, List.append_assoc]
      | none =>
        rw [migrateO_create dor sasm das a b c d rest st hds hf]
        simp [Res.finalEvents, migTrace, hds, hf, List.append_assoc]

/-! ### Claim C3 -/

/-- When the destination store resolves but the unhandled listing of the
destination mapping collection fails, `migrate` propagates the
exception. -/
theorem migrateA_copy_raised (da : Resource) (sasm : SourceMapping) (das : AccountStore)
    (a b c : Nat) (rest : List Bool) (st : St)
    (h1 : destStoreOf da.tenant sasm.account_store = some das) :
    migrateA da sasm (shape3 a b c (false :: rest)) st =
      Res.raised rest
        (pushEv (pushEv (threePhaseSt da sasm a b c st) (Ev.begin .copyMapping))
          (Ev.attempt .listMappings false)) := by
  simp only [migrateA, shape3, getDestinationTenantA_shape, getSourceAccountStoreA_shape,
    getDestinationAccountStoreA_shape, h1]
  rw [← threePhaseSt_def]
  rfl

/-- Counterexample to C3 as stated: a run of `migrate` in which the three
getter calls succeed and the (unwrapped) iteration over the destination
mapping collection then fails ends with a propagated `StormpathError`. -/
theorem C3_counterexample :
    Res.isRaised (migrateA exApp exSasm [true, true, true, false] st0) = true := by
  decide

/-- Final state of the counterexample run of C3. -/
def exRaisedSt : St :=
  match migrateA exApp exSasm [true, true, true, false] st0 with
  | .raised _ st => st
  | _ => st0

/-- C3 (amended): every call inside a `while True`/`try` loop (the two
refreshes, the search, and the create) retries on `StormpathError` after
logging an error, and never propagates the exception; but the
existing-mapping check of `copy_mapping` iterates the destination mapping
collection outside any handler, and it is the only call whose failure
propagates out of `migrate`: any propagated error comes from a listing
attempt that is the last event of the trace. -/
theorem C3_wrapped_calls_retry_unwrapped_listing_raises :
    (∀ (da : Resource) (sasm : SourceMapping) (o : List Bool) (st : St)
        (o' : List Bool) (st' : St),
      migrateA da sasm o st = Res.raised o' st' →
        st'.events.getLast? = some (Ev.attempt .listMappings false)) ∧
    (∀ (da : Resource) (o : List Bool) (st : St) (o' : List Bool) (st' : St),
      getDestinationTenantA da o st ≠ Res.raised o' st') ∧
    (∀ (sasm : SourceMapping) (o : List Bool) (st : St) (o' : List Bool) (st' : St),
      getSourceAccountStoreA sasm o st ≠ Res.raised o' st') ∧
    (∀ (tenant : Tenant) (sas : AccountStore) (o : List Bool) (st : St)
        (o' : List Bool) (st' : St),
      getDestinationAccountStoreA tenant sas o st ≠ Res.raised o' st') ∧
    (∀ (α : Type) (c : RCall) (msg : String) (act : St → α × St)
        (rest : List Bool) (st : St),
      retry c msg act (false :: rest) st =
        retry c msg act rest (pushLog (pushEv st (.attempt c false)) ⟨.error, msg⟩)) := by
  refine ⟨?_, getDestinationTenantA_ne_raised, getSourceAccountStoreA_ne_raised,
    getDestinationAccountStoreA_ne_raised, fun α c msg act rest st => rfl⟩
  intro da sasm o st o' st' h
  unfold migrateA at h
  split at h
  · cases h
  · rename_i o1 st1 heq
    exact absurd heq (getDestinationTenantA_ne_raised _ _ _ _ _)
  · rename_i tenant o1 st1 heq
    split at h
    · cases h
    · rename_i o2 st2 heq2
      exact absurd heq2 (getSourceAccountStoreA_ne_raised _ _ _ _ _)
    · rename_i sas o2 st2 heq2
      split at h
      · cases h
      · rename_i o3 st3 heq3
        exact absurd heq3 (getDestinationAccountStoreA_ne_raised _ _ _ _ _ _)
      · rename_i dasOpt o3 st3 heq3
        split at h
        · cases h
        · rename_i das
          split at h
          · cases h
          · rename_i o4 st4 heq4
            cases h
            obtain ⟨restL, hoL, hoL2, hstL⟩ := copyMappingA_raised heq4
            subst hstL
            simp [pushEv, List.getLast?_concat]
          · cases h

/-- Witness for C3's amended theorem, applied at the concrete
counterexample run. -/
theorem C3_wrapped_calls_retry_unwrapped_listing_raises_witness :
    exRaisedSt.events.getLast? = some (Ev.attempt .listMappings false) :=
  C3_wrapped_calls_retry_unwrapped_listing_raises.1 exApp exSasm
    [true, true, true, false] st0 [] exRaisedSt (by decide)

/-! ### Claim C7 -/

/-- C7: under the precondition that every remote call fails at most
finitely many times before succeeding (modeled by oracles that, for each
loop, carry finitely many failures before a success), every retry loop
terminates and returns the value of the first successful call, and
`migrate` terminates (it never hangs: it returns or, only through the
unwrapped listing call, propagates). -/
theorem C7_retry_loops_terminate :
    (∀ (α : Type) (c : RCall) (msg : String) (act : St → α × St) (n : Nat)
        (rest : List Bool) (st : St),
      retry c msg act (List.replicate n false ++ true :: rest) st =
        Res.ok (act (pushEv (failLoopSt c msg n st) (Ev.attempt c true))).1 rest
          (act (pushEv (failLoopSt c msg n st) (Ev.attempt c true))).2) ∧
    (∀ (da : Resource) (sasm : SourceMapping) (a b c d : Nat) (blm : Bool)
        (rest : List Bool) (st : St),
      migrateA da sasm (shape3 a b c (blm :: (List.replicate d false ++ true :: rest))) st ≠
        Res.hang) := by
  refine ⟨fun α c msg act n rest st => retry_shape c msg act n rest st, ?_⟩
  intro da sasm a b c d blm rest st
  cases hds : destStoreOf da.tenant sasm.account_store with
  | none =>
    rw [migrateA_skip da sasm a b c _ st hds]
    simp
  | some das =>
    cases blm with
    | false =>
      rw [migrateA_copy_raised da sasm das a b c _ st hds]
      simp
    | true =>
      cases hf : findExisting das.href da.href st.destMappings with
      | some m =>
        rw [migrateA_found da sasm das a b c _ st m hds hf]
        simp
      | none =>
        rw [migrateA_create da sasm das a b c d rest st hds hf]
        simp

/-- Witness for C7 at a concrete input: the full migration run
terminates. -/
theorem C7_retry_loops_terminate_witness :
    migrateA exApp exSasm (shape3 0 0 0 (true :: (List.replicate 0 false ++ true :: []))) st0 ≠
      Res.hang :=
  C7_retry_loops_terminate.2 exApp exSasm 0 0 0 0 true [] st0

/-! ### Claim C9 -/

/-- Frame condition on the destination mapping collection: the run either
left it unchanged, or appended exactly one new mapping (and an interrupted
run left it unchanged). -/
def mappingsFrameOk {α : Type} (old : List AccountStoreMapping) : Res α → Prop
  | .ok _ _ st => st.destMappings = old ∨ ∃ m, st.destMappings = old ++ [m]
  | .raised _ st => st.destMappings = old
  | .hang => True

/-- C9: `migrate` never mutates or deletes any existing resource: over any
oracle, the only write it can issue is at most one create, appending one
new mapping to the destination collection; every other outcome leaves the
collection unchanged.  (All other modeled resources — the source mapping,
the source store, the destination tenant and parent — are read-only inputs
of the embedding.) -/
theorem C9_at_most_one_create :
    ∀ (da : Resource) (sasm : SourceMapping) (o : List Bool) (st : St),
      mappingsFrameOk st.destMappings (migrateA da sasm o st) := by
  intro da sasm o st
  unfold migrateA
  split
  · trivial
  · rename_i o1 st1 heq
    exact absurd heq (getDestinationTenantA_ne_raised _ _ _ _ _)
  · rename_i tenant o1 st1 heq
    obtain ⟨-, hm1⟩ := getDestinationTenantA_ok heq
    split
    · trivial
    · rename_i o2 st2 heq2
      exact absurd heq2 (getSourceAccountStoreA_ne_raised _ _ _ _ _)
    · rename_i sas o2 st2 heq2
      obtain ⟨-, hm2⟩ := getSourceAccountStoreA_ok heq2
      split
      · trivial
      · rename_i o3 st3 heq3
        exact absurd heq3 (getDestinationAccountStoreA_ne_raised _ _ _ _ _ _)
      · rename_i dasOpt o3 st3 heq3
        obtain ⟨-, hm3⟩ := getDestinationAccountStoreA_ok heq3
        split
        · left
          simp [hm3, hm2, hm1]
        · rename_i das
          split
          · trivial
          · rename_i o4 st4 heq4
            obtain ⟨restL, -, -, hstL⟩ := copyMappingA_raised heq4
            subst hstL
            simp [mappingsFrameOk, hm3, hm2, hm1]
          · rename_i m o4 st4 heq4
            rcases copyMappingA_ok heq4 with ⟨-, hp⟩ | ⟨-, -, hp⟩
            · left
              simp [hp, hm3, hm2, hm1]
            · right
              exact ⟨m, by simp [hp, hm3, hm2, hm1]⟩

/-- Witness for C9 at a concrete input (a run that creates a mapping). -/
theorem C9_at_most_one_create_witness :
    mappingsFrameOk st0.destMappings
      (migrateA exApp exSasm [true, true, true, true, true] st0) :=
  C9_at_most_one_create exApp exSasm [true, true, true, true, true] st0

/-! ### Claim C5 -/

/-- C5: `migrate` is idempotent on the destination state: after any
completed first run that produced a mapping, a second run (whose remote
calls eventually succeed) creates no additional mapping, leaves the
destination mapping collection exactly as the first run left it, and
returns the very mapping the first run produced. -/
theorem C5_migrate_idempotent :
    (∀ (da : Resource) (sasm : SourceMapping) (o1 : List Bool) (st : St)
      (m : AccountStoreMapping) (o1r : List Bool) (st1 : St)
      (a b c : Nat) (rest : List Bool),
      migrateA da sasm o1 st = Res.ok (some m) o1r st1 →
        ∃ st2, migrateA da sasm (shape3 a b c (true :: rest)) st1 =
            Res.ok (some m) rest st2 ∧
          st2.destMappings = st1.destMappings) ∧
    (∀ (da : Resource) (sasm : SourceMapping) (o1 : List Bool) (st : St)
      (o1r : List Bool) (st1 : St) (a b c : Nat) (rest : List Bool),
      migrateA da sasm o1 st = Res.ok none o1r st1 →
        ∃ st2, migrateA da sasm (shape3 a b c rest) st1 =
            Res.ok none rest st2 ∧
          st2.destMappings = st1.destMappings) := by
  constructor
  case right =>
    intro da sasm o1 st o1r st1 a b c rest h
    unfold migrateA at h
    split at h
    · cases h
    · rename_i oA stA heq
      exact absurd heq (getDestinationTenantA_ne_raised _ _ _ _ _)
    · rename_i tenant oA stA heq
      obtain ⟨htv, hmA⟩ := getDestinationTenantA_ok heq
      subst htv
      split at h
      · cases h
      · rename_i oB stB heq2
        exact absurd heq2 (getSourceAccountStoreA_ne_raised _ _ _ _ _)
      · rename_i sas oB stB heq2
        obtain ⟨hsv, hmB⟩ := getSourceAccountStoreA_ok heq2
        subst hsv
        split at h
        · cases h
        · rename_i oC stC heq3
          exact absurd heq3 (getDestinationAccountStoreA_ne_raised _ _ _ _ _ _)
        · rename_i dasOpt oC stC heq3
          obtain ⟨hdv, hmC⟩ := getDestinationAccountStoreA_ok heq3
          split at h
          · injection h with h1 h2 h3
            subst h3
            have hds : destStoreOf da.tenant sasm.account_store = none := hdv.symm
            exact ⟨_, migrateA_skip da sasm a b c rest _ hds, by simp⟩
          · rename_i das
            split at h
            · cases h
            · cases h
            · rename_i mc o4 st4 heq4
              injection h with h1 h2 h3
              cases h1
  case left =>
    intro da sasm o1 st m o1r st1 a b c rest h
    unfold migrateA at h
    split at h
    · cases h
    · rename_i oA stA heq
      exact absurd heq (getDestinationTenantA_ne_raised _ _ _ _ _)
    · rename_i tenant oA stA heq
      obtain ⟨htv, hmA⟩ := getDestinationTenantA_ok heq
      subst htv
      split at h
      · cases h
      · rename_i oB stB heq2
        exact absurd heq2 (getSourceAccountStoreA_ne_raised _ _ _ _ _)
      · rename_i sas oB stB heq2
        obtain ⟨hsv, hmB⟩ := getSourceAccountStoreA_ok heq2
        subst hsv
        split at h
        · cases h
        · rename_i oC stC heq3
          exact absurd heq3 (getDestinationAccountStoreA_ne_raised _ _ _ _ _ _)
        · rename_i dasOpt oC stC heq3
          obtain ⟨hdv, hmC⟩ := getDestinationAccountStoreA_ok heq3
          split at h
          · simp at h
          · rename_i das
            have hds : destStoreOf da.tenant sasm.account_store = some das := hdv.symm
            have hchain : stC.destMappings = st.destMappings := by
              rw [hmC, hmB, hmA]
            split at h
            · cases h
            · cases h
            · rename_i mc o4 st4 heq4
              injection h with h1 h2 h3
              obtain rfl : mc = m := Option.some.inj h1
              subst h3
              rcases copyMappingA_ok heq4 with ⟨hf, hp⟩ | ⟨hf, hmEq, hp⟩
              · have hfind : findExisting das.href da.href
                    (pushLog st4 ⟨.info, successMsgA da das⟩).destMappings = some mc := by
                  rw [pushLog_destMappings, hp]
                  exact hf
                exact ⟨_, migrateA_found da sasm das a b c rest _ mc hds hfind, by simp⟩
              · have hfind : findExisting das.href da.href
                    (pushLog st4 ⟨.info, successMsgA da das⟩).destMappings = some mc := by
                  rw [pushLog_destMappings, hp]
                  unfold findExisting at hf ⊢
                  rw [List.find?_append, hf]
                  simp [List.find?, hmEq, mkCreatedApp]
                exact ⟨_, migrateA_found da sasm das a b c rest _ mc hds hfind, by simp⟩

/-- Final state of a concrete first `migrate` run that creates a mapping
(used by the C5 witness). -/
def exRun1St : St :=
  match migrateA exApp exSasm [true, true, true, true, true] st0 with
  | .ok _ _ st => st
  | _ => st0

/-- Witness for C5 at a concrete input: after a first run that created the
mapping, the second run returns the same mapping and changes nothing. -/
theorem C5_migrate_idempotent_witness :
    ∃ st2, migrateA exApp exSasm (shape3 0 0 0 (true :: [])) exRun1St =
        Res.ok (some (mkCreatedApp exApp exSasm exDestStore)) [] st2 ∧
      st2.destMappings = exRun1St.destMappings :=
  C5_migrate_idempotent.1 exApp exSasm [true, true, true, true, true] st0
    (mkCreatedApp exApp exSasm exDestStore) [] exRun1St 0 0 0 [] (by decide)

/-! ### Claim C10 -/

/-- C10: the two migrator classes implement the same resolution algorithm:
for identical inputs and identical oracles, the three getters of the
organization migrator return exactly what the application migrator's
getters return, and the created mappings differ only in the parent
resource attached. -/
theorem C10_classes_agree :
    (∀ (sasm : SourceMapping) (o : List Bool) (st : St),
      getSourceAccountStoreO sasm o st = getSourceAccountStoreA sasm o st) ∧
    (∀ (r : Resource) (o : List Bool) (st : St),
      getDestinationTenantO r o st = getDestinationTenantA r o st) ∧
    (∀ (tenant : Tenant) (sas : AccountStore) (o : List Bool) (st : St),
      getDestinationAccountStoreO tenant sas o st =
        getDestinationAccountStoreA tenant sas o st) ∧
    (∀ (pa po : Resource) (sasm : SourceMapping) (das : AccountStore),
      mkCreatedOrg po sasm das = { mkCreatedApp pa sasm das with parent_href := po.href } ∧
      (mkCreatedOrg po sasm das).parent_href = po.href ∧
      (mkCreatedApp pa sasm das).parent_href = pa.href) :=
  ⟨fun _ _ _ => rfl, fun _ _ _ => rfl, fun _ _ _ _ => rfl,
    fun _ _ _ _ => ⟨rfl, rfl, rfl⟩⟩

end Stormpath
